import Mathlib

/-!
# Verification of the Quick Open module (`src/search/QuickOpen.js`)

This file gives a shallow embedding, in Lean 4, of the Quick Open
fuzzy file / line-number navigator of the Phoenix editor, and proves the
frozen specification claims about it.

Conventions of the embedding:

* JavaScript strings are modelled as Lean `String` (a list of unicode
  code points).  `String.length` counts code points where JS `.length`
  counts UTF-16 code units; the two agree on all inputs considered by
  the claims (ASCII queries and paths).
* JS numbers appearing in this module are used as integers (line and
  column numbers, indices); they are modelled as `Int`/`Nat`.  The
  coercion `Number(string)` is modelled only on integral decimal
  numerals (see `jsNumber`); strings denoting non-integral JS numbers
  (`"1.5"`, `"1e3"`, `"0x10"`, `"Infinity"`) are outside the modelled
  domain and are mapped to `none` (treated like NaN).  No claim
  touches such inputs.
* Host objects (editors, documents, the modal bar, the external
  `StringMatch` module, the provider registration handler) are modelled
  as explicit state records or as abstract function parameters, as
  documented at each definition.
-/

namespace QuickOpen

/-! ## JS string primitives used by the module -/

/-- JS whitespace as trimmed by `Number(string)` coercion
(StrWhiteSpace: space-like characters and line terminators). -/
def isJsWhitespace (c : Char) : Bool :=
  c == ' ' || c == '\t' || c == '\n' || c == '\r' || c == '\u000B' ||
  c == '\u000C' || c == ' ' || c == '﻿' || c == ' ' || c == ' '

/-- JS line terminators (which `.` in a regular expression does not match). -/
def isLineTerminator (c : Char) : Bool :=
  c == '\n' || c == '\r' || c == ' ' || c == ' '

/-- The ten decimal digit characters. -/
def isDecDigit (c : Char) : Bool :=
  c == '0' || c == '1' || c == '2' || c == '3' || c == '4' ||
  c == '5' || c == '6' || c == '7' || c == '8' || c == '9'

/-- Value of a string of decimal digits, most significant first. -/
def digitsToNat (l : List Char) : Nat :=
  l.foldl (fun a c => a * 10 + (c.toNat - 48)) 0

/-- Strip leading and trailing JS whitespace (the trim performed by
`Number(string)`). -/
def trimChars (l : List Char) : List Char :=
  ((l.dropWhile isJsWhitespace).reverse.dropWhile isJsWhitespace).reverse

/-- Parse a non-empty all-decimal-digit character list. -/
def parseDigits (l : List Char) : Option Nat :=
  if l ≠ [] ∧ l.all isDecDigit then some (digitsToNat l) else none

/-- Model of the JS `Number(string)` coercion (as used by `isNaN(regInfo[1])`
and `regInfo[1] - 1` in `extractCursorPos`), restricted to integral decimal
numerals: after trimming whitespace, the empty string is `0`, an optional
sign followed by decimal digits is the signed value, and everything else is
`none` (NaN).  Non-integral or non-decimal JS numerals are outside the
modelled domain (see the file header). -/
def jsNumber (s : String) : Option Int :=
  let t := trimChars s.data
  if t = [] then some 0
  else if t.head? = some '+' then (parseDigits (t.drop 1)).map Int.ofNat
  else if t.head? = some '-' then (parseDigits (t.drop 1)).map (fun n => -(n : Int))
  else (parseDigits t).map Int.ofNat

/-- Index of the last occurrence of `pat` in `s` (JS `String.lastIndexOf`
on character lists); `none` when `pat` does not occur.  An empty `pat`
occurs at every index, so the result is `s.length`, as in JS. -/
def lastOccur : List Char → List Char → Option Nat
  | [], pat => if pat.isPrefixOf ([] : List Char) then some 0 else none
  | c :: cs, pat =>
    match lastOccur cs pat with
    | some i => some (i + 1)
    | none => if pat.isPrefixOf (c :: cs) then some 0 else none

/-- JS `s.lastIndexOf(pat)`: last index of occurrence, `-1` when absent. -/
def jsLastIndexOf (s pat : String) : Int :=
  match lastOccur s.data pat.data with
  | some i => (i : Int)
  | none => -1

/-- JS `s.slice(st, en)`: negative indices count from the end, indices are
clamped to `[0, length]`, and an empty string results when the normalized
start is not below the normalized end. -/
def jsSlice (s : String) (st en : Int) : String :=
  let len : Int := (s.data.length : Int)
  let norm : Int → Int := fun i => if i < 0 then max (len + i) 0 else min i len
  let st' := norm st
  let en' := norm en
  if st' < en' then String.mk ((s.data.take en'.toNat).drop st'.toNat) else ""

/-- Remove the first occurrence of `pat` from `s`
(JS `s.replace(pat, "")` with a plain-string pattern); `s` is returned
unchanged when `pat` does not occur. -/
def removeFirst : List Char → List Char → List Char
  | [], _ => []
  | c :: cs, pat =>
    if pat.isPrefixOf (c :: cs) then (c :: cs).drop pat.length
    else c :: removeFirst cs pat

/-- JS `s.replace(pat, "")` for a plain-string `pat`. -/
def jsReplaceFirst (s pat : String) : String :=
  String.mk (removeFirst s.data pat.data)

/-! ## `extractCursorPos` (QuickOpen.js lines 92, 302–318) -/

/-- Result record of `extractCursorPos`.  The JS field `local` is a
reserved word in Lean and is named `isLocal` here. -/
structure CursorPos where
  /-- `regInfo[0]`: the whole matched position string. -/
  query : String
  /-- `local`: whether the position applies to the current file
  (`query[0] === ":"`). -/
  isLocal : Bool
  /-- 0-based line number (`regInfo[1] - 1 || 0`). -/
  line : Int
  /-- 0-based column number (`regInfo[3] - 1 || 0`). -/
  ch : Int
  deriving DecidableEq, Repr

/-- Match of `CURSOR_POS_EXP = /:([^,:]+)?([,:](.+)?)?/` at the first `':'`
of the input: everything after the `':'` is optional, so the regex matches
exactly when a `':'` occurs, and it matches at the first one.  Returns
(`regInfo[0]`, `regInfo[1]`, `regInfo[3]`) for the characters after that
first `':'`. -/
def matchAfterColon (rest : List Char) : List Char × Option (List Char) × Option (List Char) :=
  let g1chars := rest.takeWhile (fun c => !(c == ',' || c == ':'))
  let rest2 := rest.dropWhile (fun c => !(c == ',' || c == ':'))
  let g1 := if g1chars = [] then none else some g1chars
  match rest2 with
  | [] => (':' :: g1chars, g1, none)
  | sep :: rest3 =>
    let g3chars := rest3.takeWhile (fun c => !isLineTerminator c)
    let g3 := if g3chars = [] then none else some g3chars
    (':' :: (g1chars ++ sep :: g3chars), g1, g3)

/-- `query.match(CURSOR_POS_EXP)`: `none` when the query has no `':'`,
else the groups of the match at the first `':'`. -/
def cursorRegexMatch : List Char → Option (List Char × Option (List Char) × Option (List Char))
  | [] => none
  | c :: rest => if c = ':' then some (matchAfterColon rest) else cursorRegexMatch rest

/-- `extractCursorPos(query)` (QuickOpen.js 302–318): extract a
`:line[,col]` / `:line[:col]` position from the query, or `null` when
the query is too short, has no `':'`, or has a non-numeric line or column
group. -/
def extractCursorPos (query : String) : Option CursorPos :=
  match cursorRegexMatch query.data with
  | none => none
  | some (m0, g1, g3) =>
    if query.length ≤ 1 then none
    else if (g1.map (fun s => (jsNumber (String.mk s)).isNone)).getD false then none
    else if (g3.map (fun s => (jsNumber (String.mk s)).isNone)).getD false then none
    else some {
      query := String.mk m0
      isLocal := query.data.head? == some ':'
      line := match g1 with
        | none => 0
        | some s => (jsNumber (String.mk s)).getD 0 - 1
      ch := match g3 with
        | none => 0
        | some s => (jsNumber (String.mk s)).getD 0 - 1 }

/-! ## `_filenameFromPath` (QuickOpen.js 279–290) -/

/-- `_filenameFromPath(path, includeExtension)` (QuickOpen.js 279–290). -/
def _filenameFromPath (path : String) (includeExtension : Bool) : String :=
  let endIdx : Int :=
    if includeExtension then (path.data.length : Int)
    else
      let e := jsLastIndexOf path "."
      if e = -1 then (path.data.length : Int) else e
  jsSlice path (jsLastIndexOf path "/" + 1) endIdx

/-! ## External `StringMatch` module and project file list

`StringMatch` (`utils/StringMatch`) and `ProjectManager` are not part of
the sources under verification; the spec notes that fuzzy matching and
multi-field sorting are "delegated to an external module (`StringMatch`)
not shown here".  They are modelled abstractly: a `StringMatcher` is
identified by the options it was constructed with plus an allocation
identity (so that the claims about matcher caching can speak about *which*
matcher is used), and the matching and sorting functions themselves are
abstract parameters bundled in `StringMatchExternal`. -/

/-- Options passed to `new StringMatch.StringMatcher(...)`.  The only
option this module passes explicitly is `segmentedSearch`; plugin-supplied
option objects are modelled by the same record. -/
structure MatcherOptions where
  segmentedSearch : Bool := false
  deriving DecidableEq, Repr

/-- Modelled from the spec: a `StringMatch.StringMatcher` from the external
`StringMatch` module, reduced to its construction data — the options it was
created with and an allocation identity distinguishing separate `new`
calls. -/
structure StringMatcher where
  options : MatcherOptions
  id : Nat
  deriving DecidableEq, Repr

/-- Modelled from the spec: a `StringMatch.SearchResult` as used by
`_doSearchFileList` — the match-goodness score produced by the matcher plus
the three fields that `_doSearchFileList` attaches to each surviving
result. -/
structure SearchResult where
  matchGoodness : Int := 0
  label : String := ""
  fullPath : String := ""
  filenameWithoutExtension : String := ""
  deriving DecidableEq, Repr

/-- A `File` entry of the project file list (`ProjectManager.getAllFiles`). -/
structure FileInfo where
  name : String
  fullPath : String
  deriving DecidableEq, Repr

/-- Modelled from the spec: the operations this module imports from the
external `StringMatch` module and from `ProjectManager`, kept abstract.
`matchFn` is `matcher.match(str, query)` (`none` models a falsy result),
`multiFieldSort` is `StringMatch.multiFieldSort(list, fieldSpec)` with the
field-priority spec flattened to an association list, and
`makeProjectRelativeIfPossible` is the `ProjectManager` path helper. -/
structure StringMatchExternal where
  matchFn : StringMatcher → String → String → Option SearchResult
  multiFieldSort : List SearchResult → List (String × Nat) → List SearchResult
  makeProjectRelativeIfPossible : String → String

/-- Trivial instantiation of the abstract external functions, used to
evaluate the development at concrete inputs. -/
def extTrivial : StringMatchExternal where
  matchFn := fun _ _ _ => none
  multiFieldSort := fun l _ => l
  makeProjectRelativeIfPossible := fun s => s

/-! ## `_doSearchFileList` / `searchFileList` (QuickOpen.js 433–478) -/

/-- The query rewrite at the top of `_doSearchFileList` (QuickOpen.js
434–438): strip off a non-local line/col number suffix so it does not
interfere with the filename search. -/
def stripCursorSuffix (query : String) : String :=
  match extractCursorPos query with
  | some cursorPos =>
    if cursorPos.isLocal = false ∧ ¬cursorPos.query = "" then
      jsReplaceFirst query cursorPos.query
    else query
  | none => query

/-- `_doSearchFileList(query, matcher)` (QuickOpen.js 433–463), with the
module-level `fileList` passed explicitly.  `$.map` drops `undefined`
returns, hence the `filterMap`. -/
def _doSearchFileList (ext : StringMatchExternal) (fileList : List FileInfo)
    (query : String) (matcher : StringMatcher) : List SearchResult :=
  let query := stripCursorSuffix query
  let filteredList := fileList.filterMap (fun fileInfo =>
    match ext.matchFn matcher (ext.makeProjectRelativeIfPossible fileInfo.fullPath) query with
    | some searchResult => some { searchResult with
        label := fileInfo.name
        fullPath := fileInfo.fullPath
        filenameWithoutExtension := _filenameFromPath fileInfo.name false }
    | none => none)
  ext.multiFieldSort filteredList
    [("matchGoodness", 0), ("filenameWithoutExtension", 1), ("label", 2), ("fullPath", 3)]

/-- Result of `searchFileList`: either a synchronous result list, or a
pending `$.Deferred` promise (when the module `fileList` is still null)
that remembers the query and matcher it was created for. -/
inductive SearchFileListResult where
  | sync (results : List SearchResult)
  | promise (query : String) (matcher : StringMatcher)
  deriving Repr

/-- `searchFileList(query, matcher)` (QuickOpen.js 465–478), with the
module-level `fileList` (null modelled as `none`) passed explicitly. -/
def searchFileList (ext : StringMatchExternal) (fileList : Option (List FileInfo))
    (query : String) (matcher : StringMatcher) : SearchFileListResult :=
  match fileList with
  | none => .promise query matcher
  | some fl => .sync (_doSearchFileList ext fl query matcher)

/-- The value the deferred of the asynchronous `searchFileList` path
resolves with once `fileListPromise` completes (QuickOpen.js 469–472): the
`done` callback synchronously re-runs `_doSearchFileList(query, matcher)`
against the file list that is populated by then. -/
def resolveFileListPromise (ext : StringMatchExternal) (loadedFileList : List FileInfo)
    (query : String) (matcher : StringMatcher) : List SearchResult :=
  _doSearchFileList ext loadedFileList query matcher

/-! ## Editor model

`EditorManager.getCurrentFullEditor()` returns a host editor object.  Only
the operations this module invokes are modelled: `getFirstVisibleLine`,
`getLastVisibleLine`, `setSelection`, `getSelections` / `setSelections`,
and `getScrollPos` / `setScrollPos`. -/

/-- A cursor position `{line, ch}`.  In `_filterCallback` the selection end
is the object `{ line: cursorPos.line }` with no `ch` field, hence `ch` is
optional. -/
structure Pos where
  line : Int
  ch : Option Int
  deriving DecidableEq, Repr

/-- One selection range as recorded by `getSelections()`. -/
structure Selection where
  start : Pos
  stop : Pos
  deriving DecidableEq, Repr

/-- A scroll position `{x, y}`. -/
structure ScrollPos where
  x : Int
  y : Int
  deriving DecidableEq, Repr

/-- The state of the current full editor that this module reads and
writes. -/
structure Editor where
  firstVisibleLine : Int
  lastVisibleLine : Int
  selections : List Selection
  scrollPos : ScrollPos
  deriving DecidableEq, Repr

/-- `editor.setSelection(from, to, center)`: replace the selections with the
single given range (the `center` flag only affects scrolling and carries no
modelled state). -/
def Editor.setSelection (ed : Editor) (first last : Pos) (_center : Bool) : Editor :=
  { ed with selections := [{ start := first, stop := last }] }

/-- `editor.setSelections(sels)`. -/
def Editor.setSelections (ed : Editor) (sels : List Selection) : Editor :=
  { ed with selections := sels }

/-- `editor.setScrollPos(x, y)`. -/
def Editor.setScrollPos (ed : Editor) (x y : Int) : Editor :=
  { ed with scrollPos := { x := x, y := y } }

/-! ## Quick Open plugins (QuickOpen.js 139–194)

A `QuickOpenPlugin` carries host callbacks.  The fields this verification
reasons about are kept; `done`, `itemFocus`, `itemSelect` and
`resultsFormatter` perform host-side effects outside the modelled state and
are omitted.  A plugin's `search` returns an array of results (or a
promise); its payload is opaque to this module and is modelled as a list of
strings. -/

/-- A registered Quick Open plugin. -/
structure Plugin where
  name : String
  languageIds : List String
  «match» : String → Bool
  search : String → StringMatcher → List String
  matcherOptions : MatcherOptions
  label : Option String := none

/-- An entry of the provider list returned by
`_providerRegistrationHandler.getProvidersForLanguageId` — the loop in
`_filterCallback` reads `plugins[i].provider`. -/
structure ProviderEntry where
  provider : Plugin

/-! ## `QuickNavigateDialog` state (QuickOpen.js 201–277) -/

/-- The state of a `QuickNavigateDialog` together with the bit of modal-bar
state the claims observe (`modalCloseCount` counts invocations of
`modalBar.close()`).  `closePromise` holds the identity of the modal bar's
close promise once the bar starts closing.  Matcher allocation identities
are drawn from `nextMatcherId`. -/
structure QuickNavigateDialog where
  isOpen : Bool := false
  closePromise : Option Nat := none
  origDocPath : Option String := none
  origSelections : Option (List Selection) := none
  origScrollPos : Option ScrollPos := none
  filenameMatcher : StringMatcher := { options := { segmentedSearch := true }, id := 0 }
  matchers : List (String × StringMatcher) := []
  nextMatcherId : Nat := 1
  modalCloseCount : Nat := 0
  deriving DecidableEq, Repr

/-- The `QuickNavigateDialog` constructor (QuickOpen.js 201–218): fresh
`_filenameMatcher` with `{segmentedSearch: true}` and an empty `_matchers`
cache; `isOpen` is the prototype default `false`. -/
def QuickNavigateDialog.init : QuickNavigateDialog := {}

/-- Lookup in the `_matchers` cache (`this._matchers[currentPlugin.name]`). -/
def lookupMatcher : List (String × StringMatcher) → String → Option StringMatcher
  | [], _ => none
  | (n, m) :: rest, name => if n = name then some m else lookupMatcher rest name

/-! ## `_filterCallback` (QuickOpen.js 486–534) -/

/-- Environment read by one `_filterCallback` invocation:
the current full editor, the provider list for the current document's
language (`_getPluginsForCurrentContext()`), and the module-level
`fileList`. -/
structure FilterEnv where
  editor : Option Editor
  plugins : List ProviderEntry
  fileList : Option (List FileInfo)

/-- The value returned by `_filterCallback`: `{error: null}`, the empty
list (red error highlight), a plugin's `search` results, or the default
file search. -/
inductive FilterResult where
  | errorNull
  | emptyList
  | pluginResults (items : List String)
  | fileResults (r : SearchFileListResult)

/-- The full outcome of one `_filterCallback` invocation: returned value,
module-level `currentPlugin` after the call, updated dialog state (matcher
cache), and the current full editor after the call (the go-to-line branch
may set its selection). -/
structure FilterOutcome where
  result : FilterResult
  currentPlugin : Option Plugin
  dialog : QuickNavigateDialog
  editor : Option Editor

/-- The `for` loop of `_filterCallback` (QuickOpen.js 511–527): scan the
provider list in order for the first plugin whose `match(query)` is true;
on a hit, fetch its `StringMatcher` from the `_matchers` cache, allocating
and caching a new one on a miss, and return the plugin, the matcher, and
the updated dialog state. -/
def scanPlugins (query : String) (d : QuickNavigateDialog) :
    List ProviderEntry → Option (Plugin × StringMatcher × QuickNavigateDialog)
  | [] => none
  | entry :: rest =>
    let plugin := entry.provider
    if plugin.«match» query then
      match lookupMatcher d.matchers plugin.name with
      | some matcher => some (plugin, matcher, d)
      | none =>
        let matcher : StringMatcher := { options := plugin.matcherOptions, id := d.nextMatcherId }
        some (plugin, matcher,
          { d with
            matchers := d.matchers ++ [(plugin.name, matcher)]
            nextMatcherId := d.nextMatcherId + 1 })
    else scanPlugins query d rest

/-- The matcher a dispatch to plugin `p` uses on dialog state `d`: the
cached one when present, else a fresh `StringMatcher` built from the
plugin's `matcherOptions`. -/
def matcherForPlugin (d : QuickNavigateDialog) (p : Plugin) : StringMatcher :=
  match lookupMatcher d.matchers p.name with
  | some m => m
  | none => { options := p.matcherOptions, id := d.nextMatcherId }

/-- The dialog state after a dispatch to plugin `p`: unchanged when `p`'s
matcher was cached, else extended by the fresh matcher under `p.name`. -/
def updateAfterDispatch (d : QuickNavigateDialog) (p : Plugin) : QuickNavigateDialog :=
  match lookupMatcher d.matchers p.name with
  | some _ => d
  | none =>
    { d with
      matchers := d.matchers ++ [(p.name, { options := p.matcherOptions, id := d.nextMatcherId })]
      nextMatcherId := d.nextMatcherId + 1 }

/-- The part of `_filterCallback` after the two special cases (plugin scan,
QuickOpen.js 511–533): dispatch to the first matching plugin, else fall
back to the default file search with the dialog's `_filenameMatcher`.
`_updateDialogLabel` only touches the DOM and is not modelled. -/
def filterRest (ext : StringMatchExternal) (env : FilterEnv)
    (d : QuickNavigateDialog) (query : String) : FilterOutcome :=
  if query = ":" then
    { result := .errorNull, currentPlugin := none, dialog := d, editor := env.editor }
  else
    match scanPlugins query d env.plugins with
    | some (plugin, matcher, d') =>
      { result := .pluginResults (plugin.search query matcher)
        currentPlugin := some plugin
        dialog := d'
        editor := env.editor }
    | none =>
      { result := .fileResults (searchFileList ext env.fileList query d.filenameMatcher)
        currentPlugin := none
        dialog := d
        editor := env.editor }

/-- `QuickNavigateDialog.prototype._filterCallback(query)` (QuickOpen.js
486–534).  `currentPlugin` is re-evaluated on every call, starting from
null; "go to line" mode is special-cased before the plugin scan, and a
bare `":"` query is a valid no-op. -/
def _filterCallback (ext : StringMatchExternal) (env : FilterEnv)
    (d : QuickNavigateDialog) (query : String) : FilterOutcome :=
  match extractCursorPos query with
  | some cursorPos =>
    if cursorPos.isLocal then
      match env.editor with
      | some editor =>
        if cursorPos.line ≥ editor.firstVisibleLine ∧ cursorPos.line ≤ editor.lastVisibleLine then
          { result := .errorNull
            currentPlugin := none
            dialog := d
            editor := some (editor.setSelection
              { line := cursorPos.line, ch := some cursorPos.ch }
              { line := cursorPos.line, ch := none } true) }
        else
          { result := .emptyList, currentPlugin := none, dialog := d, editor := env.editor }
      | none =>
        { result := .emptyList, currentPlugin := none, dialog := d, editor := none }
    else filterRest ext env d query
  | none => filterRest ext env d query

/-- Fold a sequence of `_filterCallback` invocations over the dialog state
(each call may extend the `_matchers` cache). -/
def runFilterCalls (ext : StringMatchExternal) (calls : List (FilterEnv × String))
    (d : QuickNavigateDialog) : QuickNavigateDialog :=
  calls.foldl (fun d c => (_filterCallback ext c.1 d c.2).dialog) d

/-! ## Dialog lifecycle (QuickOpen.js 390–430, 681–746, 759–779) -/

/-- Modelled from the spec: `ModalBar.CLOSE_ESCAPE`, the close-reason
constant of the external `widgets/ModalBar` module; close reasons are
modelled as strings. -/
def CLOSE_ESCAPE : String := "closeEscape"

/-- `QuickNavigateDialog.prototype._handleCloseBar(event, reason,
modalBarClosePromise)` (QuickOpen.js 400–430): record the close promise,
mark the bar closed, and — only when the close reason is
`ModalBar.CLOSE_ESCAPE` — restore the original selections and scroll
position to the current full editor.  The plugin `done()` notifications
and `searchField.destroy()` perform host-side effects outside the modelled
state. -/
def _handleCloseBar (d : QuickNavigateDialog) (reason : String)
    (modalBarClosePromise : Nat) (editor : Option Editor) :
    QuickNavigateDialog × Option Editor :=
  let d' := { d with closePromise := some modalBarClosePromise, isOpen := false }
  if reason = CLOSE_ESCAPE then
    match editor with
    | some ed =>
      let ed := match d'.origSelections with
        | some sels => ed.setSelections sels
        | none => ed
      let ed := match d'.origScrollPos with
        | some sp => ed.setScrollPos sp.x sp.y
        | none => ed
      (d', some ed)
    | none => (d', none)
  else (d', editor)

/-- `QuickNavigateDialog.prototype.close()` (QuickOpen.js 390–398).  When
the bar is still open, `modalBar.close()` is invoked (counted in
`modalCloseCount`) which synchronously triggers `_handleCloseBar` with the
bar's close reason and close promise; otherwise the already-stored
`closePromise` is returned and nothing else happens. -/
def close (d : QuickNavigateDialog) (reason : String) (modalBarClosePromise : Nat)
    (editor : Option Editor) : QuickNavigateDialog × Option Editor × Option Nat :=
  if d.isOpen = false then (d, editor, d.closePromise)
  else
    let d1 := { d with modalCloseCount := d.modalCloseCount + 1 }
    let r := _handleCloseBar d1 reason modalBarClosePromise editor
    (r.1, r.2, r.1.closePromise)

/-- `QuickNavigateDialog.prototype.showDialog(prefix, initialString)`
(QuickOpen.js 681–746), restricted to the state this verification
observes: an early return when already open, then recording of the current
document's path and of the current full editor's selections and scroll
position (null when no document is open).  The modal-bar / search-field
construction is host UI, and the `fileListPromise` prefetch it kicks off is
modelled by `ModuleEvent.fileListLoaded` below. -/
def showDialog (d : QuickNavigateDialog) (curDoc : Option String)
    (fullEditor : Option Editor) : QuickNavigateDialog :=
  if d.isOpen then d
  else
    { d with
      isOpen := true
      origDocPath := curDoc
      origSelections := match curDoc, fullEditor with
        | some _, some ed => some ed.selections
        | _, _ => none
      origScrollPos := match curDoc, fullEditor with
        | some _, some ed => some ed.scrollPos
        | _, _ => none }

/-- What `beginSearch` decides to do (QuickOpen.js 759–779): update the
open dialog's search field, wait for the stored close promise and only
then run `createDialog()`, or run `createDialog()` immediately. -/
inductive BeginSearchAction where
  | setFieldValue (pfx initialString : String)
  | waitThenCreate (p : Option Nat)
  | createNow

/-- `beginSearch(prefix, initialString)` (QuickOpen.js 759–779), with the
module-level `_curDialog` passed explicitly.  `reason`,
`modalBarClosePromise` and `editor` are the modal-bar context threaded to
`close()` (unused on the already-closing path). -/
def beginSearch (curDialog : Option QuickNavigateDialog) (pfx initialString : String)
    (reason : String) (modalBarClosePromise : Nat) (editor : Option Editor) :
    BeginSearchAction × Option QuickNavigateDialog × Option Editor :=
  match curDialog with
  | none => (.createNow, curDialog, editor)
  | some d =>
    if d.isOpen then (.setFieldValue pfx initialString, some d, editor)
    else
      let r := close d reason modalBarClosePromise editor
      (.waitThenCreate r.2.2, some r.1, r.2.1)

/-! ## Module-level file list cache (QuickOpen.js 105, 735–741, 835–837) -/

/-- Module-level state observed by the file-list claims: the `fileList`
cache (`null` modelled as `none`). -/
structure QuickOpenModuleState where
  fileList : Option (List FileInfo)

/-- Events that write the module `fileList`: the `"projectOpen"` handler
(QuickOpen.js 835–837) nulls it; the `done` callback of the
`ProjectManager.getAllFiles` prefetch started by `showDialog`
(QuickOpen.js 735–741) repopulates it. -/
inductive ModuleEvent where
  | projectOpen
  | fileListLoaded (files : List FileInfo)
  deriving Repr

/-- Effect of one module event on the `fileList` cache. -/
def moduleStep (st : QuickOpenModuleState) : ModuleEvent → QuickOpenModuleState
  | .projectOpen => { st with fileList := none }
  | .fileListLoaded files => { st with fileList := some files }

/-- Fold a sequence of module events. -/
def runEvents (st : QuickOpenModuleState) (evs : List ModuleEvent) : QuickOpenModuleState :=
  evs.foldl moduleStep st

/-! ## The `"currentFileChange"` handler (QuickOpen.js 839–882) -/

/-- Modelled from the spec: `FileSystemError.UNSUPPORTED_ENCODING`, the
expected file-system error code of the external `filesystem/FileSystemError`
module that the handler silently ignores; error values are modelled as
strings. -/
def UNSUPPORTED_ENCODING : String := "UnsupportedEncoding"

/-- Environment of one `"currentFileChange"` event: the new and old files
(by full path), the language predicate, and the outcome of
`DocumentManager.getDocumentForPath` for each path (`Except` error models a
rejected promise). -/
structure FileChangeEnv where
  newFile : Option String
  oldFile : Option String
  languageIdFor : String → String
  isBinaryFor : String → Bool
  getDocForPath : String → Except String Unit

/-- Observable effects of the `"currentFileChange"` handler. -/
inductive FCEffect where
  | setGotoDefEnabled (enabled : Bool)
  | setGotoDefProjEnabled (enabled : Bool)
  | setMenuForLanguage (languageId : String)
  | consoleError (err : String)
  | rewireLanguageChanged (path : String)
  | unwireLanguageChanged (path : String)
  deriving DecidableEq, Repr

/-- The `MainViewManager.on("currentFileChange")` handler (QuickOpen.js
839–882) as the list of effects it performs: early returns when there is
no new file or its language is binary; otherwise menu-state update, then
the new document load (success rewires the `languageChanged` listener,
failure is reported via `console.error`), then — when an old file exists —
the old document load (success unwires the listener, failure is reported
via `console.error` unless the error is
`FileSystemError.UNSUPPORTED_ENCODING`).  The handler never rethrows. -/
def currentFileChange (env : FileChangeEnv) : List FCEffect :=
  match env.newFile with
  | none => [.setGotoDefEnabled false, .setGotoDefProjEnabled false]
  | some newFilePath =>
    if env.isBinaryFor newFilePath then
      [.setGotoDefEnabled false, .setGotoDefProjEnabled false]
    else
      [FCEffect.setMenuForLanguage (env.languageIdFor newFilePath)] ++
      (match env.getDocForPath newFilePath with
       | .ok _ => [FCEffect.rewireLanguageChanged newFilePath]
       | .error err => [FCEffect.consoleError err]) ++
      (match env.oldFile with
       | none => []
       | some oldFilePath =>
         match env.getDocForPath oldFilePath with
         | .ok _ => [FCEffect.unwireLanguageChanged oldFilePath]
         | .error err =>
           if ¬err = UNSUPPORTED_ENCODING then [FCEffect.consoleError err] else [])

/-- The errors a run of the handler reports to `console.error`. -/
def errorsLogged (effects : List FCEffect) : List String :=
  effects.filterMap (fun e =>
    match e with
    | .consoleError err => some err
    | _ => none)

/-- A concrete always-matching Quick Open plugin, used to evaluate the
development at concrete inputs. -/
def definitionsPlugin : Plugin where
  name := "definitions"
  languageIds := []
  «match» := fun _ => true
  search := fun _ _ => []
  matcherOptions := { segmentedSearch := false }
  label := none

/-- A concrete filter environment with `definitionsPlugin` registered. -/
def definitionsEnv : FilterEnv where
  editor := none
  plugins := [{ provider := definitionsPlugin }]
  fileList := none

/-- A concrete editor with a selection and scroll position, used to
evaluate the development at concrete inputs. -/
def edA : Editor where
  firstVisibleLine := 0
  lastVisibleLine := 50
  selections := [{ start := { line := 1, ch := some 2 }, stop := { line := 1, ch := some 5 } }]
  scrollPos := { x := 0, y := 100 }

/-- A second concrete editor. -/
def edB : Editor where
  firstVisibleLine := 5
  lastVisibleLine := 60
  selections := []
  scrollPos := { x := 0, y := 0 }

/-- A concrete filter environment with no providers and no editor. -/
def emptyEnv : FilterEnv where
  editor := none
  plugins := []
  fileList := none

/-! ## Helper lemmas -/

theorem takeWhile_eq_self {p : Char → Bool} :
    ∀ {l : List Char}, (∀ c ∈ l, p c = true) → l.takeWhile p = l
  | [], _ => rfl
  | c :: cs, h => by
    have hc : p c = true := h c (by simp)
    have ih : cs.takeWhile p = cs := takeWhile_eq_self (fun x hx => h x (by simp [hx]))
    simp [List.takeWhile_cons, hc, ih]

theorem dropWhile_eq_nil {p : Char → Bool} :
    ∀ {l : List Char}, (∀ c ∈ l, p c = true) → l.dropWhile p = []
  | [], _ => rfl
  | c :: cs, h => by
    have hc : p c = true := h c (by simp)
    have ih : cs.dropWhile p = [] := dropWhile_eq_nil (fun x hx => h x (by simp [hx]))
    simp [List.dropWhile_cons, hc, ih]

theorem dropWhile_eq_self {p : Char → Bool} :
    ∀ {l : List Char}, (∀ c ∈ l, p c = false) → l.dropWhile p = l
  | [], _ => rfl
  | c :: cs, h => by
    have hc : p c = false := h c (by simp)
    simp [List.dropWhile_cons, hc]

theorem takeWhile_append_stop {p : Char → Bool} {sep : Char} {rest : List Char}
    (hs : p sep = false) :
    ∀ (ds : List Char), (∀ c ∈ ds, p c = true) →
      ((ds ++ sep :: rest).takeWhile p) = ds
  | [], _ => by simp [List.takeWhile_cons, hs]
  | c :: cs, h => by
    have hc : p c = true := h c (by simp)
    have ih : ((cs ++ sep :: rest).takeWhile p) = cs :=
      takeWhile_append_stop hs cs (fun x hx => h x (by simp [hx]))
    simp [List.cons_append, List.takeWhile_cons, hc, ih]

theorem dropWhile_append_stop {p : Char → Bool} {sep : Char} {rest : List Char}
    (hs : p sep = false) :
    ∀ (ds : List Char), (∀ c ∈ ds, p c = true) →
      ((ds ++ sep :: rest).dropWhile p) = sep :: rest
  | [], _ => by simp [List.dropWhile_cons, hs]
  | c :: cs, h => by
    have hc : p c = true := h c (by simp)
    have ih : ((cs ++ sep :: rest).dropWhile p) = sep :: rest :=
      dropWhile_append_stop hs cs (fun x hx => h x (by simp [hx]))
    simp [List.cons_append, List.dropWhile_cons, hc, ih]

theorem trimChars_eq_self {l : List Char} (h : ∀ c ∈ l, isJsWhitespace c = false) :
    trimChars l = l := by
  unfold trimChars
  rw [dropWhile_eq_self h,
    dropWhile_eq_self (fun c hc => h c (List.mem_reverse.mp hc)), List.reverse_reverse]

theorem decDigit_cases {c : Char} (h : isDecDigit c = true) :
    c = '0' ∨ c = '1' ∨ c = '2' ∨ c = '3' ∨ c = '4' ∨
    c = '5' ∨ c = '6' ∨ c = '7' ∨ c = '8' ∨ c = '9' := by
  have h' := h
  simp [isDecDigit] at h'
  tauto

theorem decDigit_not_sep {c : Char} (h : isDecDigit c = true) :
    (!(c == ',' || c == ':')) = true := by
  rcases decDigit_cases h with rfl | rfl | rfl | rfl | rfl | rfl | rfl | rfl | rfl | rfl <;> decide

theorem decDigit_not_ws {c : Char} (h : isDecDigit c = true) :
    isJsWhitespace c = false := by
  rcases decDigit_cases h with rfl | rfl | rfl | rfl | rfl | rfl | rfl | rfl | rfl | rfl <;> decide

theorem decDigit_ne_plus {c : Char} (h : isDecDigit c = true) : ¬c = '+' := by
  rcases decDigit_cases h with rfl | rfl | rfl | rfl | rfl | rfl | rfl | rfl | rfl | rfl <;> decide

theorem decDigit_ne_minus {c : Char} (h : isDecDigit c = true) : ¬c = '-' := by
  rcases decDigit_cases h with rfl | rfl | rfl | rfl | rfl | rfl | rfl | rfl | rfl | rfl <;> decide

theorem decDigit_ne_colon {c : Char} (h : isDecDigit c = true) : ¬c = ':' := by
  rcases decDigit_cases h with rfl | rfl | rfl | rfl | rfl | rfl | rfl | rfl | rfl | rfl <;> decide

theorem string_mk_data (s : String) : String.mk s.data = s := by
  cases s
  rfl

theorem string_eq_empty_of_data {s : String} (h : s.data = []) : s = "" := by
  cases s
  simp at h
  rw [h]

theorem string_ne_empty_of_data {s : String} (h : s.data ≠ []) : s ≠ "" := by
  intro e
  rw [e] at h
  exact h rfl

theorem isPrefixOf_self : ∀ (l : List Char), l.isPrefixOf l = true
  | [] => rfl
  | c :: cs => by simp [List.isPrefixOf, isPrefixOf_self cs]

theorem jsNumber_digits {l : List Char} (h : ∀ c ∈ l, isDecDigit c = true) (hne : l ≠ []) :
    jsNumber (String.mk l) = some ((digitsToNat l : Nat) : Int) := by
  have htrim : trimChars l = l := trimChars_eq_self (fun c hc => decDigit_not_ws (h c hc))
  match l, hne with
  | c :: cs, _ =>
    have hc : isDecDigit c = true := h c (by simp)
    have hplus : ¬((c :: cs).head? = some '+') := by
      simp only [List.head?_cons, Option.some.injEq]
      exact decDigit_ne_plus hc
    have hminus : ¬((c :: cs).head? = some '-') := by
      simp only [List.head?_cons, Option.some.injEq]
      exact decDigit_ne_minus hc
    have hall : (c :: cs).all isDecDigit = true := List.all_eq_true.mpr h
    simp only [jsNumber, htrim]
    rw [if_neg (by simp), if_neg hplus, if_neg hminus]
    simp [parseDigits, hall]

theorem cursorRegexMatch_colon (rest : List Char) :
    cursorRegexMatch (':' :: rest) = some (matchAfterColon rest) := by
  simp [cursorRegexMatch]

theorem cursorRegexMatch_append :
    ∀ (base : List Char), ':' ∉ base →
      ∀ l, cursorRegexMatch (base ++ l) = cursorRegexMatch l
  | [], _, _ => rfl
  | c :: cs, h, l => by
    have hc : ¬(c = ':') := fun e => h (by simp [e])
    have ih := cursorRegexMatch_append cs (fun m => h (by simp [m])) l
    simp [cursorRegexMatch, hc, ih]

theorem matchAfterColon_digits {ds : List Char}
    (hdig : ∀ c ∈ ds, isDecDigit c = true) (hne : ds ≠ []) :
    matchAfterColon ds = (':' :: ds, some ds, none) := by
  have ht : ds.takeWhile (fun c => !(c == ',' || c == ':')) = ds :=
    takeWhile_eq_self (fun c hc => decDigit_not_sep (hdig c hc))
  have hd : ds.dropWhile (fun c => !(c == ',' || c == ':')) = [] :=
    dropWhile_eq_nil (fun c hc => decDigit_not_sep (hdig c hc))
  simp only [matchAfterColon, ht, hd]
  simp [hne]

theorem matchAfterColon_digits_sep {sep : Char}
    (hsep : (!(sep == ',' || sep == ':')) = false) {ds : List Char}
    (hdig : ∀ c ∈ ds, isDecDigit c = true) (hne : ds ≠ []) :
    matchAfterColon (ds ++ [sep]) = (':' :: (ds ++ [sep]), some ds, none) := by
  have ht : ((ds ++ sep :: ([] : List Char)).takeWhile (fun c => !(c == ',' || c == ':'))) = ds :=
    takeWhile_append_stop hsep ds (fun c hc => decDigit_not_sep (hdig c hc))
  have hd : ((ds ++ sep :: ([] : List Char)).dropWhile (fun c => !(c == ',' || c == ':'))) =
      sep :: [] :=
    dropWhile_append_stop hsep ds (fun c hc => decDigit_not_sep (hdig c hc))
  simp only [matchAfterColon, ht, hd]
  simp [hne]

theorem removeFirst_append :
    ∀ (base : List Char), ':' ∉ base →
      ∀ rest, removeFirst (base ++ ':' :: rest) (':' :: rest) = base
  | [], _, rest => by
    simp [removeFirst, isPrefixOf_self, List.drop_length]
  | c :: cs, h, rest => by
    have hc : ¬(c = ':') := fun e => h (by simp [e])
    have hpre : ((':' :: rest).isPrefixOf (c :: (cs ++ ':' :: rest))) = false := by
      simp [List.isPrefixOf]
      intro e
      exact absurd e.symm hc
    have ih := removeFirst_append cs (fun m => h (by simp [m])) rest
    simp [removeFirst, hpre, ih]

/-- Evaluation of `extractCursorPos` on a query of the shape
`base ++ ":" ++ digits ++ suffix` with no `':'` in `base`, a non-empty
run of decimal digits, and a suffix that is empty or a bare `','`/`':'`
separator: the matched position string is `":digits suffix"`, the line is
the numeral minus one, and the column is 0. -/
theorem extractCursorPos_eq {q base ds sfx : List Char}
    (hq : q = base ++ ':' :: (ds ++ sfx))
    (hbase : ':' ∉ base)
    (hds : ds ≠ []) (hdig : ∀ c ∈ ds, isDecDigit c = true)
    (hsfx : sfx = [] ∨ sfx = [','] ∨ sfx = [':']) :
    ∀ (s : String), s.data = q →
      extractCursorPos s = some {
        query := String.mk (':' :: (ds ++ sfx))
        isLocal := (q.head? == some ':')
        line := (digitsToNat ds : Int) - 1
        ch := 0 } := by
  intro s hs
  have hmac : matchAfterColon (ds ++ sfx) = (':' :: (ds ++ sfx), some ds, none) := by
    rcases hsfx with rfl | rfl | rfl
    · simpa using matchAfterColon_digits hdig hds
    · exact matchAfterColon_digits_sep (by decide) hdig hds
    · exact matchAfterColon_digits_sep (by decide) hdig hds
  have hmatch : cursorRegexMatch s.data = some (':' :: (ds ++ sfx), some ds, none) := by
    rw [hs, hq, cursorRegexMatch_append base hbase, cursorRegexMatch_colon, hmac]
  have hdslen : 1 ≤ ds.length := by
    cases ds with
    | nil => exact absurd rfl hds
    | cons a as => simp
  have hlen : ¬(s.length ≤ 1) := by
    have hl : s.length = q.length := by
      rw [show s.length = s.data.length from rfl, hs]
    rw [hl, hq]
    simp [List.length_append]
    omega
  have hnum : jsNumber (String.mk ds) = some ((digitsToNat ds : Nat) : Int) :=
    jsNumber_digits hdig hds
  simp only [extractCursorPos, hmatch]
  rw [if_neg hlen]
  simp [hnum, hs, hq]

/-- `extractCursorPos` on a *local* go-to-line query `":" ++ digits` with
an optional trailing bare separator. -/
theorem extract_local (ds sfx : String)
    (hds : ds.data ≠ []) (hdig : ∀ c ∈ ds.data, isDecDigit c = true)
    (hsfx : sfx.data = [] ∨ sfx.data = [','] ∨ sfx.data = [':']) :
    extractCursorPos (":" ++ ds ++ sfx) = some {
      query := ":" ++ ds ++ sfx
      isLocal := true
      line := (digitsToNat ds.data : Int) - 1
      ch := 0 } := by
  have hqd : (":" ++ ds ++ sfx).data = [] ++ ':' :: (ds.data ++ sfx.data) := by
    simp [String.data_append]
  have h := extractCursorPos_eq rfl (by simp) hds hdig hsfx (":" ++ ds ++ sfx) hqd
  rw [h]
  have hquery : String.mk (':' :: (ds.data ++ sfx.data)) = ":" ++ ds ++ sfx := by
    rw [show (':' :: (ds.data ++ sfx.data)) = (":" ++ ds ++ sfx).data from by
      simp [String.data_append]]
  rw [hquery]
  simp

/-- `extractCursorPos` on a *non-local* query `base ++ ":" ++ digits` with a
non-empty `':'`-free prefix `base`: the position string is just the
`":digits"` suffix. -/
theorem extract_nonlocal (base ds : String)
    (hbase : ':' ∉ base.data) (hbne : base ≠ "")
    (hds : ds.data ≠ []) (hdig : ∀ c ∈ ds.data, isDecDigit c = true) :
    extractCursorPos (base ++ ":" ++ ds) = some {
      query := ":" ++ ds
      isLocal := false
      line := (digitsToNat ds.data : Int) - 1
      ch := 0 } := by
  have hqd : (base ++ ":" ++ ds).data = base.data ++ ':' :: (ds.data ++ []) := by
    simp [String.data_append]
  have h := extractCursorPos_eq rfl hbase hds hdig (Or.inl rfl) (base ++ ":" ++ ds) hqd
  rw [h]
  have hquery : String.mk (':' :: (ds.data ++ [])) = ":" ++ ds := by
    rw [show (':' :: (ds.data ++ [])) = (":" ++ ds).data from by simp [String.data_append]]
  rw [hquery]
  have hloc : ((base.data ++ ':' :: (ds.data ++ [])).head? == some ':') = false := by
    cases hb : base.data with
    | nil => exact absurd (string_eq_empty_of_data hb) hbne
    | cons c cs =>
      have hc : ¬(c = ':') := fun e => hbase (by simp [hb, e])
      simp [hb, hc]
  rw [hloc]

/-- The query rewrite of `_doSearchFileList` removes exactly the
`":digits"` suffix of a non-local query. -/
theorem stripCursorSuffix_nonlocal (base ds : String)
    (hbase : ':' ∉ base.data) (hbne : base ≠ "")
    (hds : ds.data ≠ []) (hdig : ∀ c ∈ ds.data, isDecDigit c = true) :
    stripCursorSuffix (base ++ ":" ++ ds) = base := by
  have hx := extract_nonlocal base ds hbase hbne hds hdig
  have hqne : (":" ++ ds) ≠ "" := string_ne_empty_of_data (by simp [String.data_append])
  simp only [stripCursorSuffix, hx]
  rw [if_pos ⟨by trivial, hqne⟩]
  unfold jsReplaceFirst
  rw [show (base ++ ":" ++ ds).data = base.data ++ ':' :: ds.data from by
      simp [String.data_append],
    show (":" ++ ds).data = ':' :: ds.data from by simp [String.data_append],
    removeFirst_append base.data hbase ds.data, string_mk_data]

/-- A local position query is not stripped by `_doSearchFileList`. -/
theorem stripCursorSuffix_local {q : String} {cp : CursorPos}
    (h : extractCursorPos q = some cp) (hl : cp.isLocal = true) :
    stripCursorSuffix q = q := by
  simp only [stripCursorSuffix, h]
  rw [if_neg (by simp [hl])]

/-- The plugin scan resolves to `find?` on the provider list, with the
matcher and dialog update described by `matcherForPlugin` and
`updateAfterDispatch`. -/
theorem scanPlugins_eq (query : String) (d : QuickNavigateDialog) :
    ∀ (ps : List ProviderEntry),
      scanPlugins query d ps =
        (ps.find? (fun e => e.provider.«match» query)).map
          (fun e => (e.provider, matcherForPlugin d e.provider, updateAfterDispatch d e.provider))
  | [] => rfl
  | entry :: rest => by
    by_cases hm : entry.provider.«match» query = true
    · simp only [scanPlugins, List.find?, hm, if_true, Option.map_some']
      cases hl : lookupMatcher d.matchers entry.provider.name with
      | some m => simp [matcherForPlugin, updateAfterDispatch, hl]
      | none => simp [matcherForPlugin, updateAfterDispatch, hl]
    · have hm' : entry.provider.«match» query = false := by simpa using hm
      simp only [scanPlugins, List.find?, hm', if_false]
      exact scanPlugins_eq query d rest

/-- A `lookupMatcher` miss means the name is not among the cache keys. -/
theorem lookupMatcher_none_not_mem :
    ∀ {l : List (String × StringMatcher)} {n : String},
      lookupMatcher l n = none → n ∉ l.map Prod.fst
  | [], _, _ => by simp
  | (k, m) :: rest, n, h => by
    by_cases hk : k = n
    · rw [show lookupMatcher ((k, m) :: rest) n = some m from by
        simp [lookupMatcher, hk]] at h
      exact absurd h (by simp)
    · have h' : lookupMatcher rest n = none := by
        simpa [lookupMatcher, hk] using h
      have ih := lookupMatcher_none_not_mem h'
      simp only [List.map_cons, List.mem_cons]
      rintro (e | e)
      · exact hk e.symm
      · exact ih e

/-- A `lookupMatcher` hit returns a cached entry. -/
theorem lookupMatcher_some_mem :
    ∀ {l : List (String × StringMatcher)} {n : String} {m : StringMatcher},
      lookupMatcher l n = some m → (n, m) ∈ l
  | [], _, _, h => by simp [lookupMatcher] at h
  | (k, m') :: rest, n, m, h => by
    by_cases hk : k = n
    · rw [show lookupMatcher ((k, m') :: rest) n = some m' from by
        simp [lookupMatcher, hk]] at h
      cases h
      rw [hk]
      exact List.mem_cons_self _ _
    · have h' : lookupMatcher rest n = some m := by
        simpa [lookupMatcher, hk] using h
      exact List.mem_cons_of_mem _ (lookupMatcher_some_mem h')

/-- One `_filterCallback` call either leaves the dialog state untouched or
extends the matcher cache by a single fresh entry for a name that was not
cached before. -/
theorem filterRest_dialog_cases (ext : StringMatchExternal) (env : FilterEnv)
    (d : QuickNavigateDialog) (query : String) :
    (filterRest ext env d query).dialog = d ∨
    ∃ p : Plugin, lookupMatcher d.matchers p.name = none ∧
      (filterRest ext env d query).dialog =
        { d with
          matchers := d.matchers ++
            [(p.name, { options := p.matcherOptions, id := d.nextMatcherId })]
          nextMatcherId := d.nextMatcherId + 1 } := by
  by_cases hq : query = ":"
  · left
    simp [filterRest, hq]
  · simp only [filterRest, if_neg hq, scanPlugins_eq]
    cases hf : env.plugins.find? (fun e => e.provider.«match» query) with
    | none => left; rfl
    | some e =>
      simp only [Option.map_some']
      cases hl : lookupMatcher d.matchers e.provider.name with
      | some m => left; simp [updateAfterDispatch, hl]
      | none =>
        right
        exact ⟨e.provider, hl, by simp [updateAfterDispatch, hl]⟩

theorem filterCallback_eq_filterRest (ext : StringMatchExternal) (env : FilterEnv)
    (d : QuickNavigateDialog) (query : String)
    (h : ∀ cp, extractCursorPos query = some cp → cp.isLocal = false) :
    _filterCallback ext env d query = filterRest ext env d query := by
  cases hcp : extractCursorPos query with
  | none => simp [_filterCallback, hcp]
  | some cp => simp [_filterCallback, hcp, h cp hcp]

theorem filterCallback_dialog_cases (ext : StringMatchExternal) (env : FilterEnv)
    (d : QuickNavigateDialog) (query : String) :
    (_filterCallback ext env d query).dialog = d ∨
    ∃ p : Plugin, lookupMatcher d.matchers p.name = none ∧
      (_filterCallback ext env d query).dialog =
        { d with
          matchers := d.matchers ++
            [(p.name, { options := p.matcherOptions, id := d.nextMatcherId })]
          nextMatcherId := d.nextMatcherId + 1 } := by
  cases hcp : extractCursorPos query with
  | none =>
    have he : _filterCallback ext env d query = filterRest ext env d query := by
      simp [_filterCallback, hcp]
    rw [he]
    exact filterRest_dialog_cases ext env d query
  | some cp =>
    by_cases hl : cp.isLocal = true
    · cases he : env.editor with
      | none => left; simp [_filterCallback, hcp, hl, he]
      | some editor =>
        by_cases hr : cp.line ≥ editor.firstVisibleLine ∧ cp.line ≤ editor.lastVisibleLine
        · left; simp [_filterCallback, hcp, hl, he, hr]
        · left; simp [_filterCallback, hcp, hl, he, hr]
    · have hfc : _filterCallback ext env d query = filterRest ext env d query :=
        filterCallback_eq_filterRest ext env d query (fun cp' hcp' => by
          rw [hcp] at hcp'
          cases hcp'
          simpa using hl)
      rw [hfc]
      exact filterRest_dialog_cases ext env d query

/-- One `_filterCallback` call preserves distinctness of the matcher-cache
keys. -/
theorem filterCallback_keys_nodup (ext : StringMatchExternal) (env : FilterEnv)
    (d : QuickNavigateDialog) (query : String)
    (h : (d.matchers.map Prod.fst).Nodup) :
    (((_filterCallback ext env d query).dialog).matchers.map Prod.fst).Nodup := by
  rcases filterCallback_dialog_cases ext env d query with he | ⟨p, hl, he⟩
  · rw [he]; exact h
  · rw [he]
    simp only [List.map_append, List.map_cons, List.map_nil]
    rw [List.nodup_append]
    refine ⟨h, List.nodup_singleton _, ?_⟩
    intro x hx hx'
    simp at hx'
    rw [hx'] at hx
    exact lookupMatcher_none_not_mem hl hx

/-- Any sequence of `_filterCallback` calls preserves distinctness of the
matcher-cache keys. -/
theorem runFilterCalls_keys_nodup (ext : StringMatchExternal) :
    ∀ (calls : List (FilterEnv × String)) (d : QuickNavigateDialog),
      (d.matchers.map Prod.fst).Nodup →
      ((runFilterCalls ext calls d).matchers.map Prod.fst).Nodup
  | [], _, h => h
  | c :: rest, d, h =>
    runFilterCalls_keys_nodup ext rest ((_filterCallback ext c.1 d c.2).dialog)
      (filterCallback_keys_nodup ext c.1 d c.2 h)

/-! ## Lemmas on `lastOccur` / `jsSlice` (for `_filenameFromPath`) -/

theorem lastOccur_nil (pat : List Char) :
    lastOccur [] pat = if pat.isPrefixOf ([] : List Char) then some 0 else none := rfl

theorem lastOccur_cons (x : Char) (l pat : List Char) :
    lastOccur (x :: l) pat =
      match lastOccur l pat with
      | some i => some (i + 1)
      | none => if pat.isPrefixOf (x :: l) then some 0 else none := rfl

theorem lastOccur_not_mem {c : Char} :
    ∀ {l : List Char}, c ∉ l → lastOccur l [c] = none
  | [], _ => by rw [lastOccur_nil]; simp [List.isPrefixOf]
  | a :: as, h => by
    have h1 : c ∉ as := fun m => h (List.mem_cons_of_mem _ m)
    have h2 : ¬(c = a) := fun e => h (by simp [e])
    have ih := lastOccur_not_mem h1
    rw [lastOccur_cons, ih]
    simp [List.isPrefixOf, h2]

theorem lastOccur_append_last {c : Char} :
    ∀ (a : List Char) {b : List Char}, c ∉ b →
      lastOccur (a ++ c :: b) [c] = some a.length
  | [], b, h => by
    rw [List.nil_append, lastOccur_cons, lastOccur_not_mem h]
    simp [List.isPrefixOf]
  | x :: xs, b, h => by
    have ih := lastOccur_append_last xs h
    rw [List.cons_append, lastOccur_cons, ih]
    simp

theorem lastOccur_append_free {c : Char} :
    ∀ (a : List Char) {t : List Char}, c ∉ t →
      lastOccur (a ++ t) [c] = lastOccur a [c]
  | [], t, h => by
    rw [List.nil_append, lastOccur_not_mem h, lastOccur_nil]
    simp [List.isPrefixOf]
  | x :: xs, t, h => by
    have ih := lastOccur_append_free xs h
    rw [List.cons_append, lastOccur_cons, lastOccur_cons, ih]
    cases hx : lastOccur xs [c] with
    | some i => rfl
    | none => simp [List.isPrefixOf]

theorem lastOccur_lt_length {c : Char} :
    ∀ {l : List Char} {i : Nat}, lastOccur l [c] = some i → i < l.length
  | [], i, h => by
    rw [lastOccur_nil] at h
    simp [List.isPrefixOf] at h
  | x :: xs, i, h => by
    rw [lastOccur_cons] at h
    cases hx : lastOccur xs [c] with
    | some j =>
      rw [hx] at h
      simp at h
      have := lastOccur_lt_length hx
      simp only [List.length_cons]
      omega
    | none =>
      rw [hx] at h
      by_cases hp : ([c].isPrefixOf (x :: xs)) = true
      · rw [if_pos hp] at h
        simp at h
        simp only [List.length_cons]
        omega
      · rw [if_neg hp] at h
        simp at h

theorem lastOccur_mem {c : Char} :
    ∀ {l : List Char}, c ∈ l → ∃ i, lastOccur l [c] = some i
  | a :: as, h => by
    cases hx : lastOccur as [c] with
    | some i => exact ⟨i + 1, by rw [lastOccur_cons, hx]⟩
    | none =>
      have hca : c = a := by
        rcases List.mem_cons.mp h with e | m
        · exact e
        · rcases lastOccur_mem m with ⟨i, hi⟩
          rw [hi] at hx
          cases hx
      refine ⟨0, ?_⟩
      have hpre : ([c].isPrefixOf (a :: as)) = true := by simp [List.isPrefixOf, hca]
      rw [lastOccur_cons, hx, if_pos hpre]

/-- `jsSlice` at in-range non-negative indices. -/
theorem jsSlice_nat (s : String) (st en : Nat)
    (hst : st ≤ s.data.length) (hen : en ≤ s.data.length) :
    jsSlice s (st : Int) (en : Int) =
      if st < en then String.mk ((s.data.take en).drop st) else "" := by
  have h1 : ¬((st : Int) < 0) := by omega
  have h2 : ¬((en : Int) < 0) := by omega
  simp only [jsSlice]
  rw [if_neg h1, if_neg h2,
    min_eq_left (by exact_mod_cast hst), min_eq_left (by exact_mod_cast hen)]
  by_cases hlt : st < en
  · rw [if_pos (by exact_mod_cast hlt), if_pos hlt]
    simp
  · rw [if_neg (by exact_mod_cast hlt), if_neg hlt]

theorem jsLastIndexOf_last_slash (a b : String) (h : '/' ∉ b.data) :
    jsLastIndexOf (a ++ "/" ++ b) "/" = (a.data.length : Int) := by
  unfold jsLastIndexOf
  rw [show (a ++ "/" ++ b).data = a.data ++ '/' :: b.data from by simp [String.data_append],
    show ("/" : String).data = ['/'] from rfl, lastOccur_append_last a.data h]

theorem filenameFromPath_with_ext (a b : String) (h : '/' ∉ b.data) :
    _filenameFromPath (a ++ "/" ++ b) true = b := by
  unfold _filenameFromPath
  rw [if_pos rfl, jsLastIndexOf_last_slash a b h]
  have hlen : (a ++ "/" ++ b).data.length = a.data.length + 1 + b.data.length := by
    simp [String.data_append]
    omega
  rw [show ((a.data.length : Int) + 1) = ((a.data.length + 1 : Nat) : Int) from by push_cast; ring]
  rw [jsSlice_nat (a ++ "/" ++ b) (a.data.length + 1) ((a ++ "/" ++ b).data.length)
    (by omega) (le_refl _)]
  by_cases hb : b.data = []
  · have hb0 : b.data.length = 0 := by rw [hb]; rfl
    rw [if_neg (by omega)]
    exact (string_eq_empty_of_data hb).symm
  · have hbl : 0 < b.data.length := List.length_pos.mpr hb
    rw [if_pos (by omega)]
    rw [List.take_length,
      show (a ++ "/" ++ b).data = (a.data ++ ['/']) ++ b.data from by simp [String.data_append],
      List.drop_left' (by simp), string_mk_data]

theorem filenameFromPath_no_ext (a b b2 : String)
    (hb : '/' ∉ b.data)
    (hb2 : '/' ∉ b2.data) (hb2d : '.' ∉ b2.data) :
    _filenameFromPath (a ++ "/" ++ b ++ "." ++ b2) false = b := by
  have hslash : jsLastIndexOf (a ++ "/" ++ b ++ "." ++ b2) "/" = (a.data.length : Int) := by
    unfold jsLastIndexOf
    rw [show (a ++ "/" ++ b ++ "." ++ b2).data = a.data ++ '/' :: (b.data ++ '.' :: b2.data) from by
        simp [String.data_append],
      show ("/" : String).data = ['/'] from rfl,
      lastOccur_append_last a.data (by
        simp only [List.mem_append, List.mem_cons]
        rintro (m | m | m)
        · exact hb m
        · exact absurd m (by decide)
        · exact hb2 m)]
  have hdot : jsLastIndexOf (a ++ "/" ++ b ++ "." ++ b2) "." =
      ((a.data.length + 1 + b.data.length : Nat) : Int) := by
    unfold jsLastIndexOf
    rw [show (a ++ "/" ++ b ++ "." ++ b2).data = (a.data ++ '/' :: b.data) ++ '.' :: b2.data from by
        simp [String.data_append],
      show ("." : String).data = ['.'] from rfl,
      lastOccur_append_last (a.data ++ '/' :: b.data) hb2d]
    simp
    omega
  have hlen : (a ++ "/" ++ b ++ "." ++ b2).data.length =
      a.data.length + 1 + b.data.length + 1 + b2.data.length := by
    simp [String.data_append]
    omega
  unfold _filenameFromPath
  rw [if_neg (by simp), hdot, hslash]
  rw [if_neg (by omega)]
  rw [show ((a.data.length : Int) + 1) = ((a.data.length + 1 : Nat) : Int) from by push_cast; ring]
  rw [jsSlice_nat (a ++ "/" ++ b ++ "." ++ b2) (a.data.length + 1)
    (a.data.length + 1 + b.data.length) (by omega) (by omega)]
  by_cases hbe : b.data = []
  · have hb0 : b.data.length = 0 := by rw [hbe]; rfl
    rw [if_neg (by omega)]
    exact (string_eq_empty_of_data hbe).symm
  · have hbl : 0 < b.data.length := List.length_pos.mpr hbe
    rw [if_pos (by omega)]
    rw [show (a ++ "/" ++ b ++ "." ++ b2).data = (a.data ++ '/' :: b.data) ++ '.' :: b2.data from by
        simp [String.data_append],
      List.take_left' (by simp; omega),
      show a.data ++ '/' :: b.data = (a.data ++ ['/']) ++ b.data from by simp,
      List.drop_left' (by simp), string_mk_data]

theorem filenameFromPath_dot_in_dir (a b : String)
    (ha : '.' ∈ a.data) (hb : '/' ∉ b.data) (hbd : '.' ∉ b.data) :
    _filenameFromPath (a ++ "/" ++ b) false = "" := by
  rcases lastOccur_mem ha with ⟨i, hi⟩
  have hilt : i < a.data.length := lastOccur_lt_length hi
  have hdot : jsLastIndexOf (a ++ "/" ++ b) "." = ((i : Nat) : Int) := by
    unfold jsLastIndexOf
    rw [show (a ++ "/" ++ b).data = a.data ++ ('/' :: b.data) from by simp [String.data_append],
      show ("." : String).data = ['.'] from rfl,
      lastOccur_append_free a.data (by
        simp only [List.mem_cons]
        rintro (m | m)
        · exact absurd m (by decide)
        · exact hbd m),
      hi]
  have hlen : (a ++ "/" ++ b).data.length = a.data.length + 1 + b.data.length := by
    simp [String.data_append]
    omega
  unfold _filenameFromPath
  rw [if_neg (by simp), hdot, jsLastIndexOf_last_slash a b hb]
  rw [if_neg (by omega)]
  rw [show ((a.data.length : Int) + 1) = ((a.data.length + 1 : Nat) : Int) from by push_cast; ring]
  rw [jsSlice_nat (a ++ "/" ++ b) (a.data.length + 1) i (by omega) (by omega)]
  rw [if_neg (by omega)]

/-! ## Claim theorems -/

/-- **C1.** For every query beginning with `':'` whose line component (with
at most a bare `','`/`':'` separator as the optional column part) is a
decimal numeral `N`, `extractCursorPos` returns `local = true`,
`line = N - 1` and `ch = 0` (0-based), and `_filterCallback` then selects
that line in the current full editor provided the line lies between the
editor's first and last visible lines — so typing `":5"` jumps to line 5. -/
theorem claim_C1 (ext : StringMatchExternal) (env : FilterEnv) (d : QuickNavigateDialog)
    (ds sfx : String) (ed : Editor)
    (hds : ds.data ≠ []) (hdig : ∀ c ∈ ds.data, isDecDigit c = true)
    (hsfx : sfx.data = [] ∨ sfx.data = [','] ∨ sfx.data = [':'])
    (hed : env.editor = some ed)
    (hlo : ed.firstVisibleLine ≤ (digitsToNat ds.data : Int) - 1)
    (hhi : (digitsToNat ds.data : Int) - 1 ≤ ed.lastVisibleLine) :
    extractCursorPos (":" ++ ds ++ sfx) = some
      { query := ":" ++ ds ++ sfx, isLocal := true,
        line := (digitsToNat ds.data : Int) - 1, ch := 0 } ∧
    _filterCallback ext env d (":" ++ ds ++ sfx) =
      { result := .errorNull
        currentPlugin := none
        dialog := d
        editor := some (ed.setSelection
          { line := (digitsToNat ds.data : Int) - 1, ch := some 0 }
          { line := (digitsToNat ds.data : Int) - 1, ch := none } true) } := by
  have hx := extract_local ds sfx hds hdig hsfx
  refine ⟨hx, ?_⟩
  simp only [_filterCallback, hx, hed]
  have hcond : ((digitsToNat ds.data : Int) - 1 ≥ ed.firstVisibleLine) ∧
      ((digitsToNat ds.data : Int) - 1 ≤ ed.lastVisibleLine) := ⟨hlo, hhi⟩
  rw [if_pos hcond]
  simp

/-- Witness for C1: the query `":5"` against an editor showing lines 0–50. -/
theorem claim_C1_witness :
    extractCursorPos ":5" = some { query := ":5", isLocal := true, line := 4, ch := 0 } ∧
    _filterCallback extTrivial
      { editor := some { firstVisibleLine := 0, lastVisibleLine := 50,
                         selections := [], scrollPos := { x := 0, y := 0 } },
        plugins := [], fileList := none }
      QuickNavigateDialog.init ":5" =
      { result := .errorNull
        currentPlugin := none
        dialog := QuickNavigateDialog.init
        editor := some { firstVisibleLine := 0, lastVisibleLine := 50,
                         selections := [{ start := { line := 4, ch := some 0 },
                                          stop := { line := 4, ch := none } }],
                         scrollPos := { x := 0, y := 0 } } } :=
  claim_C1 extTrivial
    { editor := some { firstVisibleLine := 0, lastVisibleLine := 50,
                       selections := [], scrollPos := { x := 0, y := 0 } },
      plugins := [], fileList := none }
    QuickNavigateDialog.init "5" ""
    { firstVisibleLine := 0, lastVisibleLine := 50,
      selections := [], scrollPos := { x := 0, y := 0 } }
    (by decide) (by decide) (Or.inl rfl) rfl (by decide) (by decide)

/-- **C2.** In the `currentFileChange` handler, failed document loads are
only logged, never propagated: a failed load of the new file's document is
always reported via `console.error`, and a failed load of the old file's
document is reported via `console.error` exactly when the error is not
`FileSystemError.UNSUPPORTED_ENCODING`, which is silently ignored. -/
theorem claim_C2 (env : FileChangeEnv) (p : String)
    (hn : env.newFile = some p) (hb : env.isBinaryFor p = false) :
    errorsLogged (currentFileChange env) =
      (match env.getDocForPath p with
       | .ok _ => []
       | .error e => [e]) ++
      (match env.oldFile with
       | none => []
       | some q =>
         match env.getDocForPath q with
         | .ok _ => []
         | .error e => if e = UNSUPPORTED_ENCODING then [] else [e]) := by
  simp only [currentFileChange, hn, hb, Bool.false_eq_true, if_false]
  cases h1 : env.getDocForPath p with
  | ok u =>
    cases h2 : env.oldFile with
    | none => simp [errorsLogged, h1, h2]
    | some q =>
      cases h3 : env.getDocForPath q with
      | ok v => simp [errorsLogged, h1, h2, h3]
      | error e =>
        by_cases he : e = UNSUPPORTED_ENCODING
        · simp [errorsLogged, h1, h2, h3, he]
        · simp [errorsLogged, h1, h2, h3, he]
  | error e1 =>
    cases h2 : env.oldFile with
    | none => simp [errorsLogged, h1, h2]
    | some q =>
      cases h3 : env.getDocForPath q with
      | ok v => simp [errorsLogged, h1, h2, h3]
      | error e =>
        by_cases he : e = UNSUPPORTED_ENCODING
        · simp [errorsLogged, h1, h2, h3, he]
        · simp [errorsLogged, h1, h2, h3, he]

/-- Witness for C2: the new document loads, the old document load fails
with an ordinary error, which is logged. -/
theorem claim_C2_witness :
    errorsLogged (currentFileChange
      { newFile := some "new.js", oldFile := some "old.js",
        languageIdFor := fun _ => "javascript",
        isBinaryFor := fun _ => false,
        getDocForPath := fun path =>
          if path = "old.js" then .error "NotReadable" else .ok () }) =
      ["NotReadable"] :=
  claim_C2
    { newFile := some "new.js", oldFile := some "old.js",
      languageIdFor := fun _ => "javascript",
      isBinaryFor := fun _ => false,
      getDocForPath := fun path =>
        if path = "old.js" then .error "NotReadable" else .ok () }
    "new.js" rfl rfl

/-- **C9.** `_filenameFromPath(path, true)` returns the substring after the
final `'/'`; with `includeExtension` false it truncates at the last `'.'`
of the whole path, so a path whose last `'.'` lies before its last `'/'`
(such as `"dir.name/README"`) yields the empty string instead of the file
name. -/
theorem claim_C9 (a b b2 : String)
    (h1 : '/' ∉ b.data) (h2 : '.' ∉ b.data)
    (h3 : '/' ∉ b2.data) (h4 : '.' ∉ b2.data) (h5 : '.' ∈ a.data) :
    _filenameFromPath (a ++ "/" ++ b) true = b ∧
    _filenameFromPath (a ++ "/" ++ b ++ "." ++ b2) false = b ∧
    _filenameFromPath (a ++ "/" ++ b) false = "" :=
  ⟨filenameFromPath_with_ext a b h1,
   filenameFromPath_no_ext a b b2 h1 h3 h4,
   filenameFromPath_dot_in_dir a b h5 h1 h2⟩

/-- Witness for C9 at the claim's own example `"dir.name/README"` (and
`"dir.name/README.md"` for the normal truncation case). -/
theorem claim_C9_witness :
    _filenameFromPath "dir.name/README" true = "README" ∧
    _filenameFromPath "dir.name/README.md" false = "README" ∧
    _filenameFromPath "dir.name/README" false = "" :=
  claim_C9 "dir.name" "README" "md"
    (by decide) (by decide) (by decide) (by decide) (by decide)

/-- **C3.** On every query change `_filterCallback` re-evaluates
`currentPlugin` from null; for a query that is neither a bare go-to-line
query nor `":"` it scans the providers for the current context in order
and delegates to the first plugin whose `match(query)` is true, setting
`currentPlugin` to it and returning `plugin.search(query, matcher)`; when
no plugin matches it returns the default `searchFileList(query,
_filenameMatcher)` with `currentPlugin` still null. -/
theorem claim_C3 (ext : StringMatchExternal) (env : FilterEnv) (d : QuickNavigateDialog)
    (query : String)
    (h1 : ∀ cp, extractCursorPos query = some cp → cp.isLocal = false)
    (h2 : query ≠ ":") :
    (match env.plugins.find? (fun e => e.provider.«match» query) with
     | some e =>
       (_filterCallback ext env d query).currentPlugin = some e.provider ∧
       (_filterCallback ext env d query).result =
         .pluginResults (e.provider.search query (matcherForPlugin d e.provider))
     | none =>
       (_filterCallback ext env d query).currentPlugin = none ∧
       (_filterCallback ext env d query).result =
         .fileResults (searchFileList ext env.fileList query d.filenameMatcher)) := by
  have hfc := filterCallback_eq_filterRest ext env d query h1
  cases hf : env.plugins.find? (fun e => e.provider.«match» query) with
  | some e =>
    constructor <;>
      (rw [hfc]; simp [filterRest, h2, scanPlugins_eq, hf])
  | none =>
    constructor <;>
      (rw [hfc]; simp [filterRest, h2, scanPlugins_eq, hf])

/-- Witness for C3: a query with no registered providers falls through to
the default file search with no current plugin. -/
theorem claim_C3_witness :
    (_filterCallback extTrivial { editor := none, plugins := [], fileList := none }
      QuickNavigateDialog.init "abc").currentPlugin = none ∧
    (_filterCallback extTrivial { editor := none, plugins := [], fileList := none }
      QuickNavigateDialog.init "abc").result =
      .fileResults (searchFileList extTrivial none "abc"
        QuickNavigateDialog.init.filenameMatcher) :=
  claim_C3 extTrivial { editor := none, plugins := [], fileList := none }
    QuickNavigateDialog.init "abc"
    (by
      intro cp h
      rw [show extractCursorPos "abc" = none from by decide] at h
      exact Option.noConfusion h)
    (by decide)

/-- **C4.** The per-plugin matcher cache `_matchers` holds at most one
`StringMatcher` per plugin name: it starts empty in the constructor, its
keys stay distinct over any sequence of `_filterCallback` calls, a
dispatch to a plugin whose name is cached reuses the cached matcher and
leaves the dialog state untouched, and a dispatch to an uncached name
constructs exactly one new `StringMatcher` from the plugin's
`matcherOptions` and appends it under that name. -/
theorem claim_C4 (ext : StringMatchExternal) (env : FilterEnv) (d : QuickNavigateDialog)
    (query : String) (calls : List (FilterEnv × String)) (e : ProviderEntry) (m : StringMatcher)
    (hfind : env.plugins.find? (fun pe => pe.provider.«match» query) = some e)
    (hq1 : ∀ cp, extractCursorPos query = some cp → cp.isLocal = false)
    (hq2 : query ≠ ":") :
    QuickNavigateDialog.init.matchers = [] ∧
    (((runFilterCalls ext calls QuickNavigateDialog.init).matchers.map Prod.fst).Nodup) ∧
    (_filterCallback ext env d query).result =
      .pluginResults (e.provider.search query (matcherForPlugin d e.provider)) ∧
    (_filterCallback ext env d query).dialog = updateAfterDispatch d e.provider ∧
    (lookupMatcher d.matchers e.provider.name = some m →
      matcherForPlugin d e.provider = m ∧ (_filterCallback ext env d query).dialog = d) ∧
    (lookupMatcher d.matchers e.provider.name = none →
      matcherForPlugin d e.provider =
        { options := e.provider.matcherOptions, id := d.nextMatcherId } ∧
      (_filterCallback ext env d query).dialog.matchers =
        d.matchers ++ [(e.provider.name,
          { options := e.provider.matcherOptions, id := d.nextMatcherId })] ∧
      (_filterCallback ext env d query).dialog.nextMatcherId = d.nextMatcherId + 1) := by
  have hfc := filterCallback_eq_filterRest ext env d query hq1
  refine ⟨rfl, runFilterCalls_keys_nodup ext calls _ (by simp [QuickNavigateDialog.init]),
    ?_, ?_, ?_, ?_⟩
  · rw [hfc]
    simp [filterRest, hq2, scanPlugins_eq, hfind]
  · rw [hfc]
    simp [filterRest, hq2, scanPlugins_eq, hfind]
  · intro hl
    refine ⟨by simp [matcherForPlugin, hl], ?_⟩
    rw [hfc]
    simp [filterRest, hq2, scanPlugins_eq, hfind, updateAfterDispatch, hl]
  · intro hl
    refine ⟨by simp [matcherForPlugin, hl], ?_, ?_⟩ <;>
      (rw [hfc]; simp [filterRest, hq2, scanPlugins_eq, hfind, updateAfterDispatch, hl])

/-- Witness for C4: a single always-matching plugin named `"definitions"`
dispatched from the constructor's empty cache. -/
theorem claim_C4_witness :
    QuickNavigateDialog.init.matchers = [] ∧
    (((runFilterCalls extTrivial [] QuickNavigateDialog.init).matchers.map Prod.fst).Nodup) ∧
    (_filterCallback extTrivial definitionsEnv QuickNavigateDialog.init "@foo").result =
      .pluginResults (definitionsPlugin.search "@foo"
        (matcherForPlugin QuickNavigateDialog.init definitionsPlugin)) ∧
    (_filterCallback extTrivial definitionsEnv QuickNavigateDialog.init "@foo").dialog =
      updateAfterDispatch QuickNavigateDialog.init definitionsPlugin ∧
    (lookupMatcher QuickNavigateDialog.init.matchers definitionsPlugin.name =
        some { options := { segmentedSearch := false }, id := 0 } →
      matcherForPlugin QuickNavigateDialog.init definitionsPlugin =
        { options := { segmentedSearch := false }, id := 0 } ∧
      (_filterCallback extTrivial definitionsEnv QuickNavigateDialog.init "@foo").dialog =
        QuickNavigateDialog.init) ∧
    (lookupMatcher QuickNavigateDialog.init.matchers definitionsPlugin.name = none →
      matcherForPlugin QuickNavigateDialog.init definitionsPlugin =
        { options := definitionsPlugin.matcherOptions, id := QuickNavigateDialog.init.nextMatcherId } ∧
      (_filterCallback extTrivial definitionsEnv QuickNavigateDialog.init "@foo").dialog.matchers =
        QuickNavigateDialog.init.matchers ++ [(definitionsPlugin.name,
          { options := definitionsPlugin.matcherOptions, id := QuickNavigateDialog.init.nextMatcherId })] ∧
      (_filterCallback extTrivial definitionsEnv QuickNavigateDialog.init "@foo").dialog.nextMatcherId =
        QuickNavigateDialog.init.nextMatcherId + 1) :=
  claim_C4 extTrivial definitionsEnv QuickNavigateDialog.init "@foo" []
    { provider := definitionsPlugin }
    { options := { segmentedSearch := false }, id := 0 }
    rfl
    (by
      intro cp h
      rw [show extractCursorPos "@foo" = none from by decide] at h
      exact Option.noConfusion h)
    (by decide)

theorem filterMap_eq_reduceOption_map {α β : Type} (f : α → Option β) (l : List α) :
    l.filterMap f = (l.map f).reduceOption := by
  show l.filterMap f = (l.map f).filterMap id
  rw [List.filterMap_map]
  rfl

/-- **C5.** `_doSearchFileList` first strips a non-local line/column suffix
from the query, keeps exactly the entries of `fileList` on which
`matcher.match` against the project-relative full path succeeds, attaches
`label` (the file name), `fullPath` and `filenameWithoutExtension` to each
surviving result, and delegates the ordering to `StringMatch.multiFieldSort`
with field priorities `matchGoodness` (0), `filenameWithoutExtension` (1),
`label` (2), `fullPath` (3). -/
theorem claim_C5 (ext : StringMatchExternal) (fileList : List FileInfo)
    (query : String) (matcher : StringMatcher) (base ds : String)
    (hbase : ':' ∉ base.data) (hbne : base ≠ "")
    (hds : ds.data ≠ []) (hdig : ∀ c ∈ ds.data, isDecDigit c = true) :
    _doSearchFileList ext fileList query matcher =
      ext.multiFieldSort
        ((fileList.map (fun fileInfo =>
          (ext.matchFn matcher (ext.makeProjectRelativeIfPossible fileInfo.fullPath)
              (stripCursorSuffix query)).map
            (fun searchResult => { searchResult with
              label := fileInfo.name
              fullPath := fileInfo.fullPath
              filenameWithoutExtension := _filenameFromPath fileInfo.name false }))).reduceOption)
        [("matchGoodness", 0), ("filenameWithoutExtension", 1), ("label", 2), ("fullPath", 3)] ∧
    stripCursorSuffix (base ++ ":" ++ ds) = base ∧
    (∀ q cp, extractCursorPos q = some cp → cp.isLocal = true → stripCursorSuffix q = q) := by
  refine ⟨?_, stripCursorSuffix_nonlocal base ds hbase hbne hds hdig,
    fun q cp h hl => stripCursorSuffix_local h hl⟩
  simp only [_doSearchFileList]
  rw [← filterMap_eq_reduceOption_map]
  congr 1
  congr 1
  funext fileInfo
  cases ext.matchFn matcher (ext.makeProjectRelativeIfPossible fileInfo.fullPath)
    (stripCursorSuffix query) <;> rfl

/-- Witness for C5: concrete query `"abc:7"` whose `":7"` suffix is
stripped before the file-list pass. -/
theorem claim_C5_witness :
    _doSearchFileList extTrivial [] "abc:7" { options := { segmentedSearch := true }, id := 0 } =
      extTrivial.multiFieldSort
        ((([] : List FileInfo).map (fun fileInfo =>
          (extTrivial.matchFn { options := { segmentedSearch := true }, id := 0 }
              (extTrivial.makeProjectRelativeIfPossible fileInfo.fullPath)
              (stripCursorSuffix "abc:7")).map
            (fun searchResult => { searchResult with
              label := fileInfo.name
              fullPath := fileInfo.fullPath
              filenameWithoutExtension := _filenameFromPath fileInfo.name false }))).reduceOption)
        [("matchGoodness", 0), ("filenameWithoutExtension", 1), ("label", 2), ("fullPath", 3)] ∧
    stripCursorSuffix ("abc" ++ ":" ++ "7") = "abc" ∧
    (∀ q cp, extractCursorPos q = some cp → cp.isLocal = true → stripCursorSuffix q = q) :=
  claim_C5 extTrivial [] "abc:7" { options := { segmentedSearch := true }, id := 0 }
    "abc" "7" (by decide) (by decide) (by decide) (by decide)

/-- **C6.** `searchFileList` returns `_doSearchFileList(query, matcher)`
synchronously when the `fileList` cache is populated, and otherwise a
promise that resolves — once the file-list load completes — with exactly
`_doSearchFileList(query, matcher)` over the loaded list, so the deferred
path yields the same result list as a synchronous call made after the
load. -/
theorem claim_C6 (ext : StringMatchExternal) (loaded : List FileInfo)
    (query : String) (matcher : StringMatcher) (r : List SearchResult)
    (h : searchFileList ext (some loaded) query matcher = .sync r) :
    searchFileList ext none query matcher = .promise query matcher ∧
    resolveFileListPromise ext loaded query matcher = r ∧
    searchFileList ext (some loaded) query matcher =
      .sync (resolveFileListPromise ext loaded query matcher) := by
  refine ⟨rfl, ?_, rfl⟩
  have h' : SearchFileListResult.sync (_doSearchFileList ext loaded query matcher) =
      SearchFileListResult.sync r := h
  cases h'
  rfl

/-- Witness for C6 with the trivial external functions and an empty loaded
file list. -/
theorem claim_C6_witness :
    searchFileList extTrivial none "a" { options := { segmentedSearch := true }, id := 0 } =
      .promise "a" { options := { segmentedSearch := true }, id := 0 } ∧
    resolveFileListPromise extTrivial [] "a"
      { options := { segmentedSearch := true }, id := 0 } = [] ∧
    searchFileList extTrivial (some []) "a" { options := { segmentedSearch := true }, id := 0 } =
      .sync (resolveFileListPromise extTrivial [] "a"
        { options := { segmentedSearch := true }, id := 0 }) :=
  claim_C6 extTrivial [] "a" { options := { segmentedSearch := true }, id := 0 } [] rfl

/-- **C7.** The module `fileList` cache is scoped to a single project: the
`"projectOpen"` handler nulls it, so after a project switch — and until the
prefetch kicked off by `showDialog` repopulates it — every `searchFileList`
call takes the asynchronous path rather than returning a stale list; a
completed load makes `searchFileList` synchronous again. -/
theorem claim_C7 (ext : StringMatchExternal) (st : QuickOpenModuleState)
    (evs : List ModuleEvent) (query : String) (matcher : StringMatcher)
    (h : ∀ fs, ModuleEvent.fileListLoaded fs ∉ evs) :
    (runEvents (moduleStep st .projectOpen) evs).fileList = none ∧
    searchFileList ext (runEvents (moduleStep st .projectOpen) evs).fileList query matcher =
      .promise query matcher ∧
    (∀ (st2 : QuickOpenModuleState) (files : List FileInfo),
      (moduleStep st2 (.fileListLoaded files)).fileList = some files ∧
      searchFileList ext (moduleStep st2 (.fileListLoaded files)).fileList query matcher =
        .sync (_doSearchFileList ext files query matcher)) := by
  have hnone : ∀ (evs' : List ModuleEvent), (∀ fs, ModuleEvent.fileListLoaded fs ∉ evs') →
      ∀ (st' : QuickOpenModuleState), st'.fileList = none →
      (runEvents st' evs').fileList = none := by
    intro evs'
    induction evs' with
    | nil => intro _ st' h1; exact h1
    | cons e rest ih =>
      intro h2 st' h1
      cases e with
      | projectOpen =>
        exact ih (fun fs m => h2 fs (List.mem_cons_of_mem _ m)) _ rfl
      | fileListLoaded fs =>
        exact absurd (List.mem_cons_self _ _) (h2 fs)
  have h1 : (runEvents (moduleStep st .projectOpen) evs).fileList = none :=
    hnone evs h _ rfl
  refine ⟨h1, ?_, fun st2 files => ⟨rfl, rfl⟩⟩
  rw [h1]
  rfl

/-- Witness for C7: a project switch from a state with a populated cache,
followed by no load. -/
theorem claim_C7_witness :
    (runEvents (moduleStep { fileList := some [] } .projectOpen) []).fileList = none ∧
    searchFileList extTrivial
      (runEvents (moduleStep { fileList := some [] } .projectOpen) []).fileList "q"
      { options := { segmentedSearch := true }, id := 0 } =
      .promise "q" { options := { segmentedSearch := true }, id := 0 } ∧
    (∀ (st2 : QuickOpenModuleState) (files : List FileInfo),
      (moduleStep st2 (.fileListLoaded files)).fileList = some files ∧
      searchFileList extTrivial (moduleStep st2 (.fileListLoaded files)).fileList "q"
        { options := { segmentedSearch := true }, id := 0 } =
        .sync (_doSearchFileList extTrivial files "q"
          { options := { segmentedSearch := true }, id := 0 })) :=
  claim_C7 extTrivial { fileList := some [] } [] "q"
    { options := { segmentedSearch := true }, id := 0 }
    (fun fs => by simp)

/-- **C8.** When a document was open at `showDialog` time, the dialog
records the current full editor's selections and scroll position, and a
later modal-bar close with reason `ModalBar.CLOSE_ESCAPE` restores exactly
those recorded selections and that scroll position to the current full
editor, while any other close reason leaves the editor's selections and
scroll position unchanged. -/
theorem claim_C8 (d0 : QuickNavigateDialog) (path : String) (ed curEd : Editor)
    (reason : String) (p : Nat) (h0 : d0.isOpen = false) :
    (showDialog d0 (some path) (some ed)).origSelections = some ed.selections ∧
    (showDialog d0 (some path) (some ed)).origScrollPos = some ed.scrollPos ∧
    (_handleCloseBar (showDialog d0 (some path) (some ed)) CLOSE_ESCAPE p (some curEd)).2 =
      some { curEd with selections := ed.selections, scrollPos := ed.scrollPos } ∧
    (reason ≠ CLOSE_ESCAPE →
      (_handleCloseBar (showDialog d0 (some path) (some ed)) reason p (some curEd)).2 =
        some curEd) := by
  have hsd : showDialog d0 (some path) (some ed) =
      { d0 with
        isOpen := true
        origDocPath := some path
        origSelections := some ed.selections
        origScrollPos := some ed.scrollPos } := by
    unfold showDialog
    rw [if_neg (by simp [h0])]
  refine ⟨by rw [hsd], by rw [hsd], ?_, ?_⟩
  · rw [hsd]
    simp [_handleCloseBar, Editor.setSelections, Editor.setScrollPos]
  · intro hr
    rw [hsd]
    simp [_handleCloseBar, hr]

/-- Witness for C8: escape-close restores the recorded editor state; a
blur-close leaves the then-current editor untouched. -/
theorem claim_C8_witness :
    (showDialog QuickNavigateDialog.init (some "f.js") (some edA)).origSelections =
      some edA.selections ∧
    (showDialog QuickNavigateDialog.init (some "f.js") (some edA)).origScrollPos =
      some edA.scrollPos ∧
    (_handleCloseBar (showDialog QuickNavigateDialog.init (some "f.js") (some edA))
      CLOSE_ESCAPE 3 (some edB)).2 =
      some { edB with selections := edA.selections, scrollPos := edA.scrollPos } ∧
    (("closeBlur" : String) ≠ CLOSE_ESCAPE →
      (_handleCloseBar (showDialog QuickNavigateDialog.init (some "f.js") (some edA))
        "closeBlur" 3 (some edB)).2 = some edB) :=
  claim_C8 QuickNavigateDialog.init "f.js" edA edB "closeBlur" 3 rfl

/-- **C10.** Once an opened dialog has started closing, `close()` is
idempotent: while `isOpen` is false it returns the stored `closePromise`
without invoking `modalBar.close()` again (the state, including the
modal-close counter, is unchanged), and `beginSearch` on such a closing
dialog reuses that same promise, deferring the creation of a new dialog
until it resolves. -/
theorem claim_C10 (d : QuickNavigateDialog) (cp : Nat)
    (reason pfx initialString : String) (p : Nat) (ed : Option Editor)
    (h1 : d.isOpen = false) (h2 : d.closePromise = some cp) :
    close d reason p ed = (d, ed, some cp) ∧
    beginSearch (some d) pfx initialString reason p ed =
      (.waitThenCreate (some cp), some d, ed) := by
  have hc : close d reason p ed = (d, ed, some cp) := by
    unfold close
    rw [if_pos h1, h2]
  refine ⟨hc, ?_⟩
  unfold beginSearch
  simp [h1, hc]

/-- Witness for C10: a dialog that has started closing with stored promise
`7`. -/
theorem claim_C10_witness :
    close { QuickNavigateDialog.init with closePromise := some 7 } "closeBlur" 9 none =
      ({ QuickNavigateDialog.init with closePromise := some 7 }, none, some 7) ∧
    beginSearch (some { QuickNavigateDialog.init with closePromise := some 7 })
      ":" "" "closeBlur" 9 none =
      (.waitThenCreate (some 7),
       some { QuickNavigateDialog.init with closePromise := some 7 }, none) :=
  claim_C10 { QuickNavigateDialog.init with closePromise := some 7 } 7
    "closeBlur" ":" "" 9 none rfl rfl

end QuickOpen
